import Mathlib

/-!
Verification of the amber-api Rust client (a typed client for the Amber
Electric REST API) against its natural-language specification.

The development shallowly embeds the parts of the source the claims touch:

* `src/models.rs`: the tagged response model (`Interval`, `Renewable`,
  `Usage` and their shared bases) together with the serde-derived JSON
  decoding rules (internally tagged enums dispatching on the `type` field,
  `camelCase` field renaming, flattened base records, `Option` fields that
  default to absent, unknown fields ignored).
* `src/client.rs`: client configuration (`Default` reading the
  `AMBER_API_KEY` environment variable), request construction (base URL,
  bearer header, query-pair assembly with absent optionals filtered out)
  and the per-endpoint path/query builders.
* `src/error.rs`: the `AmberError` taxonomy.
* The transport/retry executor: the request-execution loop that absorbs
  HTTP 429 responses according to the retry policy.  Its implementation is
  not among the sources provided (only its declarations in `src/error.rs`
  and its async callers in `tests/integration.rs` are), so it is modelled
  from the spec, as flagged on the definitions below.

JSON numbers are modelled as integers: every claim settled here is
independent of fractional numeric values, and integer literals are valid
JSON for the `f64` fields of the source.  Timestamps and civil dates are
modelled by their validated textual representation (the source parses them
with the external `jiff` crate); no claim settled here compares two
distinct textual representations of one instant.
-/

namespace AmberApi

/-! ### JSON values -/

/-- A JSON value.  Numbers are restricted to integers (see the file
header); objects are finite lists of key/value members. -/
inductive Json where
  | null
  | bool (b : Bool)
  | num (n : Int)
  | str (s : String)
  | arr (elems : List Json)
  | obj (members : List (String × Json))

/-- Look a key up in an object's member list (first occurrence).  The
payloads the claims quantify over have pairwise-distinct keys, on which
this agrees with serde's map access. -/
def getField : List (String × Json) → String → Option Json
  | [], _ => none
  | (k, v) :: rest, key => if k = key then some v else getField rest key

/-! ### Civil dates and timestamps

The source stores `jiff::civil::Date` and `jiff::Timestamp` values parsed
from ISO 8601 text.  They are embedded as validated raw strings. -/

/-- A decoded `jiff::civil::Date`, kept as its validated `YYYY-MM-DD`
text. -/
structure CivilDate where
  raw : String
deriving DecidableEq

/-- A decoded `jiff::Timestamp`, kept as its validated RFC 3339 text. -/
structure Timestamp where
  raw : String
deriving DecidableEq

/-- Decimal digit test on characters. -/
def isDigit (c : Char) : Bool := '0' ≤ c && c ≤ '9'

/-- Numeric value of a two-digit string fragment. -/
def twoDigits (a b : Char) : Nat := (a.toNat - 48) * 10 + (b.toNat - 48)

/-- Shape check for a `YYYY-MM-DD` civil date. -/
def validDateChars : List Char → Bool
  | [y1, y2, y3, y4, '-', m1, m2, '-', d1, d2] =>
      [y1, y2, y3, y4, m1, m2, d1, d2].all isDigit &&
      (1 ≤ twoDigits m1 m2 && twoDigits m1 m2 ≤ 12) &&
      (1 ≤ twoDigits d1 d2 && twoDigits d1 d2 ≤ 31)
  | _ => false

/-- Parse a civil date, modelling `jiff::civil::Date` deserialization. -/
def parseDate (s : String) : Option CivilDate :=
  if validDateChars s.toList then some ⟨s⟩ else none

/-- Shape check for an RFC 3339 UTC offset: `Z` or `±HH:MM`. -/
def validOffsetChars : List Char → Bool
  | ['Z'] => true
  | [sign, o1, o2, ':', p1, p2] =>
      (sign == '+' || sign == '-') && [o1, o2, p1, p2].all isDigit &&
      twoDigits o1 o2 ≤ 23 && twoDigits p1 p2 ≤ 59
  | _ => false

/-- Shape check for an RFC 3339 timestamp `YYYY-MM-DDTHH:MM:SS<offset>`
(fractional seconds are not needed by the payloads considered here). -/
def validTimestampChars : List Char → Bool
  | y1 :: y2 :: y3 :: y4 :: '-' :: m1 :: m2 :: '-' :: d1 :: d2 :: 'T' ::
      h1 :: h2 :: ':' :: mi1 :: mi2 :: ':' :: s1 :: s2 :: rest =>
      validDateChars [y1, y2, y3, y4, '-', m1, m2, '-', d1, d2] &&
      [h1, h2, mi1, mi2, s1, s2].all isDigit &&
      twoDigits h1 h2 ≤ 23 && twoDigits mi1 mi2 ≤ 59 && twoDigits s1 s2 ≤ 59 &&
      validOffsetChars rest
  | _ => false

/-- Parse a timestamp, modelling `jiff::Timestamp` deserialization. -/
def parseTimestamp (s : String) : Option Timestamp :=
  if validTimestampChars s.toList then some ⟨s⟩ else none

/-! ### Enumerations from `src/models.rs` -/

/-- Valid interval resolution options. -/
inductive Resolution where
  | FiveMinute
  | ThirtyMinute
deriving DecidableEq

/-- The `fmt::Display` implementation for `Resolution`: the integer minute
count. -/
def Resolution.display : Resolution → String
  | .FiveMinute => "5"
  | .ThirtyMinute => "30"

/-- Valid Australian states for renewable energy data. -/
inductive State where
  | Nsw
  | Vic
  | Qld
  | Sa
deriving DecidableEq

/-- The `fmt::Display` implementation for `State`. -/
def State.display : State → String
  | .Nsw => "nsw"
  | .Vic => "vic"
  | .Qld => "qld"
  | .Sa => "sa"

/-- Meter channel type. -/
inductive ChannelType where
  | General
  | ControlledLoad
  | FeedIn
deriving DecidableEq

/-- Spike status of an interval. -/
inductive SpikeStatus where
  | None
  | Potential
  | Spike
deriving DecidableEq

/-- Price descriptor (seven values, `Negative` deprecated). -/
inductive PriceDescriptor where
  | Negative
  | ExtremelyLow
  | VeryLow
  | Low
  | Neutral
  | High
  | Spike
deriving DecidableEq

/-- Renewable descriptor (five qualitative levels). -/
inductive RenewableDescriptor where
  | Best
  | Great
  | Ok
  | NotGreat
  | Worst
deriving DecidableEq

/-- Time-of-use period. -/
inductive TariffPeriod where
  | OffPeak
  | Shoulder
  | SolarSponge
  | Peak
deriving DecidableEq

/-- Time-of-use season. -/
inductive TariffSeason where
  | Default
  | Summer
  | Autumn
  | Winter
  | Spring
  | NonSummer
  | Holiday
  | Weekend
  | WeekendHoliday
  | Weekday
deriving DecidableEq

/-- Usage data quality. -/
inductive UsageQuality where
  | Estimated
  | Billable
deriving DecidableEq

/-! ### Records from `src/models.rs` -/

/-- Tariff information attached to an interval (all fields optional). -/
structure TariffInformation where
  period : Option TariffPeriod
  season : Option TariffSeason
  block : Option Nat
  demand_window : Option Bool
deriving DecidableEq

/-- Price range returned when prices are volatile (`f64` fields carried as
integers, see the file header). -/
structure Range where
  min : Int
  max : Int
deriving DecidableEq

/-- Advanced price prediction band. -/
structure AdvancedPrice where
  low : Int
  predicted : Int
  high : Int
deriving DecidableEq

/-- Base interval structure containing the fields common to every interval
variant. -/
structure BaseInterval where
  duration : Nat
  spot_per_kwh : Int
  per_kwh : Int
  date : CivilDate
  nem_time : Timestamp
  start_time : Timestamp
  end_time : Timestamp
  renewables : Int
  channel_type : ChannelType
  tariff_information : Option TariffInformation
  spike_status : SpikeStatus
  descriptor : PriceDescriptor
deriving DecidableEq

/-- Actual interval with confirmed pricing. -/
structure ActualInterval where
  base : BaseInterval
deriving DecidableEq

/-- Forecast interval with predicted pricing. -/
structure ForecastInterval where
  base : BaseInterval
  range : Option Range
  advanced_price : Option AdvancedPrice
deriving DecidableEq

/-- Current interval with real-time pricing. -/
structure CurrentInterval where
  base : BaseInterval
  range : Option Range
  estimate : Bool
  advanced_price : Option AdvancedPrice
deriving DecidableEq

/-- Interval enum: a closed set of three variants discriminated by the
JSON `type` field. -/
inductive Interval where
  | ActualInterval (v : ActualInterval)
  | ForecastInterval (v : ForecastInterval)
  | CurrentInterval (v : CurrentInterval)
deriving DecidableEq

/-- The base record of any interval variant. -/
def Interval.base : Interval → BaseInterval
  | .ActualInterval v => v.base
  | .ForecastInterval v => v.base
  | .CurrentInterval v => v.base

/-- Usage data for a specific interval. -/
structure Usage where
  base : BaseInterval
  channel_identifier : String
  kwh : Int
  quality : UsageQuality
  cost : Int
deriving DecidableEq

/-- Base renewable data structure. -/
structure BaseRenewable where
  duration : Nat
  date : CivilDate
  nem_time : Timestamp
  start_time : Timestamp
  end_time : Timestamp
  renewables : Int
  descriptor : RenewableDescriptor
deriving DecidableEq

/-- Actual renewable data. -/
structure ActualRenewable where
  base : BaseRenewable
deriving DecidableEq

/-- Forecast renewable data. -/
structure ForecastRenewable where
  base : BaseRenewable
deriving DecidableEq

/-- Current renewable data. -/
structure CurrentRenewable where
  base : BaseRenewable
deriving DecidableEq

/-- Renewable enum: a closed set of three variants discriminated by the
JSON `type` field. -/
inductive Renewable where
  | ActualRenewable (v : ActualRenewable)
  | ForecastRenewable (v : ForecastRenewable)
  | CurrentRenewable (v : CurrentRenewable)
deriving DecidableEq

/-- The base record of any renewable variant. -/
def Renewable.base : Renewable → BaseRenewable
  | .ActualRenewable v => v.base
  | .ForecastRenewable v => v.base
  | .CurrentRenewable v => v.base

/-! ### JSON decoding

Shallow embedding of the serde `Deserialize` derives of `src/models.rs`:
fields are read by their `camelCase` wire names, unknown fields are
ignored (no `deny_unknown_fields`), `Option` fields decode missing or
`null` to `None`, the flattened base records read from the same member
list as the outer struct, and the internally tagged enums dispatch on the
`type` member with unknown tags a hard error. -/

/-- Decode a JSON value as a string. -/
def asStr : Json → Except String String
  | .str s => .ok s
  | _ => .error "expected a string"

/-- Decode a JSON value as a number (an integer in this model). -/
def asNum : Json → Except String Int
  | .num n => .ok n
  | _ => .error "expected a number"

/-- Decode a JSON value as a boolean. -/
def asBool : Json → Except String Bool
  | .bool b => .ok b
  | _ => .error "expected a boolean"

/-- Decode a `u32` field: a non-negative integer below `2 ^ 32`. -/
def asU32 (j : Json) : Except String Nat := do
  let n ← asNum j
  if 0 ≤ n ∧ n < 4294967296 then .ok n.toNat
  else .error "number out of range for u32"

/-- Read a required field of an object. -/
def reqField (fields : List (String × Json)) (key : String)
    (dec : Json → Except String α) : Except String α :=
  match getField fields key with
  | some v => dec v
  | none => .error ("missing field " ++ key)

/-- Read an `Option` field: missing and `null` decode to `none`. -/
def optField (fields : List (String × Json)) (key : String)
    (dec : Json → Except String α) : Except String (Option α) :=
  match getField fields key with
  | none => .ok none
  | some .null => .ok none
  | some v => (dec v).map some

/-- Decode a civil date field. -/
def asDate (j : Json) : Except String CivilDate := do
  let s ← asStr j
  match parseDate s with
  | some d => .ok d
  | none => .error "invalid date"

/-- Decode a timestamp field. -/
def asTimestamp (j : Json) : Except String Timestamp := do
  let s ← asStr j
  match parseTimestamp s with
  | some t => .ok t
  | none => .error "invalid timestamp"

/-- Decode a `ChannelType` from its `camelCase` wire name. -/
def asChannelType (j : Json) : Except String ChannelType := do
  match ← asStr j with
  | "general" => .ok .General
  | "controlledLoad" => .ok .ControlledLoad
  | "feedIn" => .ok .FeedIn
  | _ => .error "unknown channel type"

/-- Decode a `SpikeStatus` from its `camelCase` wire name. -/
def asSpikeStatus (j : Json) : Except String SpikeStatus := do
  match ← asStr j with
  | "none" => .ok .None
  | "potential" => .ok .Potential
  | "spike" => .ok .Spike
  | _ => .error "unknown spike status"

/-- Decode a `PriceDescriptor` from its `camelCase` wire name. -/
def asPriceDescriptor (j : Json) : Except String PriceDescriptor := do
  match ← asStr j with
  | "negative" => .ok .Negative
  | "extremelyLow" => .ok .ExtremelyLow
  | "veryLow" => .ok .VeryLow
  | "low" => .ok .Low
  | "neutral" => .ok .Neutral
  | "high" => .ok .High
  | "spike" => .ok .Spike
  | _ => .error "unknown price descriptor"

/-- Decode a `RenewableDescriptor` from its `camelCase` wire name. -/
def asRenewableDescriptor (j : Json) : Except String RenewableDescriptor := do
  match ← asStr j with
  | "best" => .ok .Best
  | "great" => .ok .Great
  | "ok" => .ok .Ok
  | "notGreat" => .ok .NotGreat
  | "worst" => .ok .Worst
  | _ => .error "unknown renewable descriptor"

/-- Decode a `TariffPeriod` from its `camelCase` wire name. -/
def asTariffPeriod (j : Json) : Except String TariffPeriod := do
  match ← asStr j with
  | "offPeak" => .ok .OffPeak
  | "shoulder" => .ok .Shoulder
  | "solarSponge" => .ok .SolarSponge
  | "peak" => .ok .Peak
  | _ => .error "unknown tariff period"

/-- Decode a `TariffSeason` from its `camelCase` wire name. -/
def asTariffSeason (j : Json) : Except String TariffSeason := do
  match ← asStr j with
  | "default" => .ok .Default
  | "summer" => .ok .Summer
  | "autumn" => .ok .Autumn
  | "winter" => .ok .Winter
  | "spring" => .ok .Spring
  | "nonSummer" => .ok .NonSummer
  | "holiday" => .ok .Holiday
  | "weekend" => .ok .Weekend
  | "weekendHoliday" => .ok .WeekendHoliday
  | "weekday" => .ok .Weekday
  | _ => .error "unknown tariff season"

/-- Decode a `UsageQuality` from its `camelCase` wire name. -/
def asUsageQuality (j : Json) : Except String UsageQuality := do
  match ← asStr j with
  | "estimated" => .ok .Estimated
  | "billable" => .ok .Billable
  | _ => .error "unknown usage quality"

/-- Decode a `TariffInformation` object (every field optional). -/
def asTariffInformation (j : Json) : Except String TariffInformation :=
  match j with
  | .obj fields => do
      let period ← optField fields "period" asTariffPeriod
      let season ← optField fields "season" asTariffSeason
      let block ← optField fields "block" asU32
      let demand_window ← optField fields "demandWindow" asBool
      .ok ⟨period, season, block, demand_window⟩
  | _ => .error "expected an object"

/-- Decode a `Range` object. -/
def asRange (j : Json) : Except String Range :=
  match j with
  | .obj fields => do
      let mn ← reqField fields "min" asNum
      let mx ← reqField fields "max" asNum
      .ok ⟨mn, mx⟩
  | _ => .error "expected an object"

/-- Decode an `AdvancedPrice` object. -/
def asAdvancedPrice (j : Json) : Except String AdvancedPrice :=
  match j with
  | .obj fields => do
      let low ← reqField fields "low" asNum
      let predicted ← reqField fields "predicted" asNum
      let high ← reqField fields "high" asNum
      .ok ⟨low, predicted, high⟩
  | _ => .error "expected an object"

/-- Decode the flattened `BaseInterval` record from an object's members. -/
def decodeBaseInterval (fields : List (String × Json)) :
    Except String BaseInterval := do
  let duration ← reqField fields "duration" asU32
  let spot_per_kwh ← reqField fields "spotPerKwh" asNum
  let per_kwh ← reqField fields "perKwh" asNum
  let date ← reqField fields "date" asDate
  let nem_time ← reqField fields "nemTime" asTimestamp
  let start_time ← reqField fields "startTime" asTimestamp
  let end_time ← reqField fields "endTime" asTimestamp
  let renewables ← reqField fields "renewables" asNum
  let channel_type ← reqField fields "channelType" asChannelType
  let tariff_information ← optField fields "tariffInformation" asTariffInformation
  let spike_status ← reqField fields "spikeStatus" asSpikeStatus
  let descriptor ← reqField fields "descriptor" asPriceDescriptor
  .ok ⟨duration, spot_per_kwh, per_kwh, date, nem_time, start_time, end_time,
    renewables, channel_type, tariff_information, spike_status, descriptor⟩

/-- Decode an `ActualInterval` (base only) from an object's members. -/
def decodeActualInterval (fields : List (String × Json)) :
    Except String ActualInterval := do
  let base ← decodeBaseInterval fields
  .ok ⟨base⟩

/-- Decode a `ForecastInterval` from an object's members. -/
def decodeForecastInterval (fields : List (String × Json)) :
    Except String ForecastInterval := do
  let base ← decodeBaseInterval fields
  let range ← optField fields "range" asRange
  let advanced_price ← optField fields "advancedPrice" asAdvancedPrice
  .ok ⟨base, range, advanced_price⟩

/-- Decode a `CurrentInterval` from an object's members. -/
def decodeCurrentInterval (fields : List (String × Json)) :
    Except String CurrentInterval := do
  let base ← decodeBaseInterval fields
  let range ← optField fields "range" asRange
  let estimate ← reqField fields "estimate" asBool
  let advanced_price ← optField fields "advancedPrice" asAdvancedPrice
  .ok ⟨base, range, estimate, advanced_price⟩

/-- Decode an `Interval`: internally tagged on the `type` member, with the
closed variant set `ActualInterval`, `ForecastInterval`,
`CurrentInterval`. -/
def decodeInterval (j : Json) : Except String Interval :=
  match j with
  | .obj fields =>
    match getField fields "type" with
    | some (.str t) =>
        if t = "ActualInterval" then
          (decodeActualInterval fields).map .ActualInterval
        else if t = "ForecastInterval" then
          (decodeForecastInterval fields).map .ForecastInterval
        else if t = "CurrentInterval" then
          (decodeCurrentInterval fields).map .CurrentInterval
        else .error ("unknown variant " ++ t)
    | some _ => .error "the type tag must be a string"
    | none => .error "missing field type"
  | _ => .error "expected an object"

/-- Decode the flattened `BaseRenewable` record from an object's
members. -/
def decodeBaseRenewable (fields : List (String × Json)) :
    Except String BaseRenewable := do
  let duration ← reqField fields "duration" asU32
  let date ← reqField fields "date" asDate
  let nem_time ← reqField fields "nemTime" asTimestamp
  let start_time ← reqField fields "startTime" asTimestamp
  let end_time ← reqField fields "endTime" asTimestamp
  let renewables ← reqField fields "renewables" asNum
  let descriptor ← reqField fields "descriptor" asRenewableDescriptor
  .ok ⟨duration, date, nem_time, start_time, end_time, renewables, descriptor⟩

/-- Decode a `Renewable`: internally tagged on the `type` member, with the
closed variant set `ActualRenewable`, `ForecastRenewable`,
`CurrentRenewable`. -/
def decodeRenewable (j : Json) : Except String Renewable :=
  match j with
  | .obj fields =>
    match getField fields "type" with
    | some (.str t) =>
        if t = "ActualRenewable" then
          (decodeBaseRenewable fields).map (fun b => .ActualRenewable ⟨b⟩)
        else if t = "ForecastRenewable" then
          (decodeBaseRenewable fields).map (fun b => .ForecastRenewable ⟨b⟩)
        else if t = "CurrentRenewable" then
          (decodeBaseRenewable fields).map (fun b => .CurrentRenewable ⟨b⟩)
        else .error ("unknown variant " ++ t)
    | some _ => .error "the type tag must be a string"
    | none => .error "missing field type"
  | _ => .error "expected an object"

/-- Decode a `Usage` record: a plain struct (no `type` dispatch) with a
flattened `BaseInterval` plus its own fields. -/
def decodeUsage (j : Json) : Except String Usage :=
  match j with
  | .obj fields => do
      let base ← decodeBaseInterval fields
      let channel_identifier ← reqField fields "channelIdentifier" asStr
      let kwh ← reqField fields "kwh" asNum
      let quality ← reqField fields "quality" asUsageQuality
      let cost ← reqField fields "cost" asNum
      .ok ⟨base, channel_identifier, kwh, quality, cost⟩
  | _ => .error "expected an object"

/-! ### Client configuration and request construction, from `src/client.rs`

The `ureq::Agent` transport handle carries no request-relevant data and is
omitted from the embedded configuration. -/

/-- The base URL for the Amber Electric API (`API_BASE_URL`). -/
def API_BASE_URL : String := "https://api.amber.com.au/v1/"

/-- The `Amber` client configuration: optional API key and base URL. -/
structure Amber where
  api_key : Option String
  base_url : String
deriving DecidableEq

/-- The `Default` impl for `Amber`: the API key is read once from the
`AMBER_API_KEY` environment variable (modelled as a lookup function) and
kept only when non-empty, mirroring `.ok().filter(|s| !s.is_empty())`. -/
def Amber.defaultClient (envVar : String → Option String) : Amber :=
  { api_key := (envVar "AMBER_API_KEY").filter (fun s => !s.isEmpty)
  , base_url := API_BASE_URL }

/-- An HTTP GET request as assembled by `Amber::get`: the path appended to
the base URL, the bearer header when a key is configured, and the query
pairs in the order supplied. -/
structure Request where
  url : String
  headers : List (String × String)
  query : List (String × String)
deriving DecidableEq

/-- Request construction of `Amber::get` (the part before the network
call): URL concatenation, conditional `Authorization` header, query
pairs. -/
def Amber.buildRequest (c : Amber) (path : String)
    (query : List (String × String)) : Request :=
  { url := c.base_url ++ path
  , headers :=
      match c.api_key with
      | some k => [("Authorization", "Bearer " ++ k)]
      | none => []
  , query := query }

/-- Whether a request carries a bearer `Authorization` header. -/
def Request.hasBearerAuth (r : Request) : Bool :=
  r.headers.any (fun kv => kv.1 == "Authorization" && kv.2.startsWith "Bearer ")

/-- The optional-parameter query assembly shared by `current_prices` and
`current_renewables`: `[next, previous, resolution]` pairs with absent
values dropped by `filter_map`. -/
def currentQuery (next previous : Option Nat) (resolution : Option Resolution) :
    List (String × String) :=
  ([("next", next.map toString),
    ("previous", previous.map toString),
    ("resolution", resolution.map Resolution.display)]).filterMap
    (fun kv => kv.2.map (fun val => (kv.1, val)))

/-- Path built by `Amber::current_prices`. -/
def currentPricesPath (site_id : String) : String :=
  "sites/" ++ site_id ++ "/prices/current"

/-- Path built by `Amber::current_renewables`. -/
def currentRenewablesPath (state : State) : String :=
  "state/" ++ state.display ++ "/renewables/current"

/-- The request assembled by `Amber::current_prices` before the network
call. -/
def Amber.currentPricesRequest (c : Amber) (site_id : String)
    (next previous : Option Nat) (resolution : Option Resolution) : Request :=
  c.buildRequest (currentPricesPath site_id) (currentQuery next previous resolution)

/-- The request assembled by `Amber::current_renewables` before the
network call. -/
def Amber.currentRenewablesRequest (c : Amber) (state : State)
    (next previous : Option Nat) (resolution : Option Resolution) : Request :=
  c.buildRequest (currentRenewablesPath state) (currentQuery next previous resolution)

/-! ### Errors, from `src/error.rs` -/

/-- The `AmberError` taxonomy.  `http` stands for the wrapped
`ureq::Error` transport failure; the numeric payloads (`u64` seconds,
`u32` attempts) are carried as naturals. -/
inductive AmberError where
  | http (msg : String)
  | deserialization (msg : String)
  | rateLimitExceeded (retry_after : Nat)
  | rateLimitExhausted (attempts : Nat) (retry_after : Nat)
  | unexpectedStatus (status : Nat) (body : String)
deriving DecidableEq

/-! ### Transport/retry executor

Modelled from the spec: the request-execution loop of the transport/retry
executor (spec section 4.1) is not among the sources provided under
`src/` — only its error declarations (`src/error.rs`, which documents
`retry_on_rate_limit(false)`, the retry budget and `UnexpectedStatus`) and
its async callers (`tests/integration.rs`) are.  The loop is therefore
embedded from the spec's words: one logical call issues requests against
the transport; 2xx decodes the body; 429 reads the rate-limit-reset header
(default 60 when absent or unparseable) and either fails immediately
(retries disabled), fails exhausted (attempt budget spent) or sleeps and
retries; any other status fails with the status and best-effort body
text. -/

/-- Modelled from the spec: the retry configuration of the executor (max
retry attempts, default 3; retry-enabled flag, default true), absent from
the `Amber` struct of the provided `src/client.rs`. -/
structure RetryPolicy where
  retry_enabled : Bool
  max_retries : Nat
deriving DecidableEq

/-- An HTTP response as seen by the executor: status code, optional
rate-limit-reset header, and body (`none` models a body that cannot be
read). -/
structure HttpResponse where
  status : Nat
  rateLimitReset : Option String
  body : Option String
deriving DecidableEq

/-- Placeholder text used when a response body cannot be read. -/
def unreadableBody : String := "<unreadable body>"

/-- Whether a status code is a 2xx success. -/
def is2xx (status : Nat) : Bool := 200 ≤ status && status < 300

/-- Parse a non-negative decimal integer, modelling `str::parse::<u64>`
on the header values considered here (all far below the `u64` bound). -/
def parseU64 (s : String) : Option Nat :=
  match s.toList with
  | [] => none
  | cs =>
    if cs.all isDigit then
      some (cs.foldl (fun acc c => acc * 10 + (c.toNat - 48)) 0)
    else none

/-- Modelled from the spec: seconds until rate-limit reset, read from the
rate-limit-reset header when present and parseable, else the 60-second
default. -/
def retryAfterOf (header : Option String) : Nat :=
  match header with
  | some s => (parseU64 s).getD 60
  | none => 60

/-- The outcome of one logical executor call: the result handed to the
caller and the backoff waits (in seconds) performed along the way. -/
structure ExecOutcome (T : Type) where
  result : Except AmberError T
  waits : List Nat

/-- Modelled from the spec: the bounded retry loop of the executor.  The
simulated transport is a list of successive responses (one consumed per
attempt; an exhausted list stands for a transport-level failure, which is
propagated and never retried); `attempt` counts the attempts already made,
the first request being attempt 1. -/
def execLoop (policy : RetryPolicy) (decode : String → Option T) :
    List HttpResponse → Nat → ExecOutcome T
  | [], _ => ⟨.error (.http "transport failure"), []⟩
  | r :: rest, attempt =>
    if is2xx r.status then
      match r.body with
      | some b =>
        match decode b with
        | some v => ⟨.ok v, []⟩
        | none => ⟨.error (.deserialization "body does not match the expected shape"), []⟩
      | none => ⟨.error (.deserialization "unreadable body"), []⟩
    else if r.status = 429 then
      let retry_after := retryAfterOf r.rateLimitReset
      if !policy.retry_enabled then
        ⟨.error (.rateLimitExceeded retry_after), []⟩
      else if policy.max_retries ≤ attempt then
        ⟨.error (.rateLimitExhausted attempt retry_after), []⟩
      else
        let out := execLoop policy decode rest (attempt + 1)
        ⟨out.result, retry_after :: out.waits⟩
    else
      ⟨.error (.unexpectedStatus r.status (r.body.getD unreadableBody)), []⟩

/-- Modelled from the spec: one logical call through the executor `get`,
starting at attempt 1. -/
def execGet (policy : RetryPolicy) (decode : String → Option T)
    (responses : List HttpResponse) : ExecOutcome T :=
  execLoop policy decode responses 1

/-! ### Concrete payloads used by the theorems -/

/-- An `ActualInterval` JSON payload with every field valid and fixed,
except the `startTime` and `endTime` members, which are the given
strings. -/
def intervalPayloadAt (s e : String) : Json := .obj
  [("type", .str "ActualInterval"), ("duration", .num 5),
   ("spotPerKwh", .num 6), ("perKwh", .num 24),
   ("date", .str "2021-05-05"), ("nemTime", .str "2021-05-06T12:30:00+10:00"),
   ("startTime", .str s), ("endTime", .str e),
   ("renewables", .num 45), ("channelType", .str "general"),
   ("tariffInformation", .null), ("spikeStatus", .str "none"),
   ("descriptor", .str "neutral")]

/-- A timestamp used for both ends of an interval. -/
def sameInstant : String := "2021-05-05T02:00:00Z"

/-- The interval decoded from `intervalPayloadAt sameInstant sameInstant`:
its start and end timestamps coincide. -/
def equalTimesDecoded : Interval := .ActualInterval ⟨⟨5, 6, 24,
  ⟨"2021-05-05"⟩, ⟨"2021-05-06T12:30:00+10:00"⟩, ⟨sameInstant⟩, ⟨sameInstant⟩,
  45, .General, none, .None, .Neutral⟩⟩

/-- A JSON payload whose non-`type` members form a valid `Usage` record,
carrying a `type` member with a value unknown to every tagged enum. -/
def usageTypePayload : Json := .obj
  [("type", .str "TotallyUnknown"), ("duration", .num 5),
   ("spotPerKwh", .num 6), ("perKwh", .num 24),
   ("date", .str "2021-05-05"), ("nemTime", .str "2021-05-06T12:30:00+10:00"),
   ("startTime", .str "2021-05-05T02:00:01Z"), ("endTime", .str "2021-05-05T02:30:00Z"),
   ("renewables", .num 45), ("channelType", .str "general"),
   ("tariffInformation", .null), ("spikeStatus", .str "none"),
   ("descriptor", .str "negative"), ("channelIdentifier", .str "E1"),
   ("kwh", .num 0), ("quality", .str "estimated"), ("cost", .num 0)]

/-! ### Claims -/

/-- C1: through the executor `get`, a transport that answers 429 with
rate-limit-reset header `5` on the first two attempts and any 2xx
response with a well-formed body on the third, under retries enabled and
`max_retries = 3`, yields `Ok` with the decoded body — the two 429
responses are absorbed internally and never surface as an error — after
two backoff waits of 5 seconds each. -/
theorem execGet_absorbs_retryable_429 {T : Type} (decode : String → Option T)
    (b : String) (v : T) (rb1 rb2 : Option String) (s : Nat) (hdr : Option String)
    (hs : is2xx s = true) (hdec : decode b = some v) :
    execGet ⟨true, 3⟩ decode
      [⟨429, some "5", rb1⟩, ⟨429, some "5", rb2⟩, ⟨s, hdr, some b⟩]
      = ⟨.ok v, [5, 5]⟩ := by
  have h429 : is2xx 429 = false := rfl
  have hra : retryAfterOf (some "5") = 5 := rfl
  simp [execGet, execLoop, h429, hra, hs, hdec]

/-- Witness for C1: a concrete 429/429/200 transport with body `7`
decoded as a natural number succeeds with two 5-second waits. -/
theorem execGet_absorbs_retryable_429_witness :
    is2xx 200 = true ∧ parseU64 "7" = some 7
    ∧ execGet ⟨true, 3⟩ parseU64
        [⟨429, some "5", some ""⟩, ⟨429, some "5", some ""⟩, ⟨200, none, some "7"⟩]
      = ⟨.ok 7, [5, 5]⟩ :=
  ⟨rfl, rfl, execGet_absorbs_retryable_429 parseU64 "7" 7 (some "") (some "") 200 none rfl rfl⟩

/-- C2: through the executor `get` with retries disabled, a first
response of 429 with rate-limit-reset header `30` fails immediately with
`RateLimitExceeded(30)` and performs no backoff wait. -/
theorem execGet_retries_disabled_fails_immediately {T : Type}
    (decode : String → Option T) (m : Nat) (rb : Option String)
    (rest : List HttpResponse) :
    execGet ⟨false, m⟩ decode (⟨429, some "30", rb⟩ :: rest)
      = ⟨.error (.rateLimitExceeded 30), []⟩ := by
  have h429 : is2xx 429 = false := rfl
  have hra : retryAfterOf (some "30") = 30 := rfl
  simp [execGet, execLoop, h429, hra]

/-- Every response of a transport that always answers 429 without a
rate-limit-reset header leads the retry loop, once within an attempt of
the budget, to `RateLimitExhausted` at the configured maximum with the
default 60-second reset. -/
theorem execLoop_allRateLimited {T : Type} (decode : String → Option T) (m : Nat) :
    ∀ (rs : List HttpResponse) (a : Nat),
      (∀ r ∈ rs, r.status = 429 ∧ r.rateLimitReset = none) →
      a ≤ m → m - a < rs.length →
      (execLoop ⟨true, m⟩ decode rs a).result = .error (.rateLimitExhausted m 60)
  | [], a => by
      intro _ _ hlen
      simp at hlen
  | r :: rest, a => by
      intro hall ham hlen
      obtain ⟨hs, hh⟩ := hall r (List.mem_cons_self r rest)
      have h429 : is2xx 429 = false := rfl
      by_cases hma : m ≤ a
      · have ha : a = m := Nat.le_antisymm ham hma
        subst ha
        simp [execLoop, hs, hh, h429, retryAfterOf, hma]
      · have hlt : a < m := Nat.lt_of_not_le hma
        have hlen2 : m - a < rest.length + 1 := by simpa using hlen
        have ih := execLoop_allRateLimited decode m rest (a + 1)
          (fun x hx => hall x (List.mem_cons_of_mem _ hx)) hlt (by omega)
        simp [execLoop, hs, hh, h429, retryAfterOf, hma, ih]

/-- C3: through the executor `get` against a transport that returns 429
with no rate-limit-reset header on every attempt, under retries enabled
and `max_retries = 2`, the call fails with
`RateLimitExhausted(attempts = 2, retry_after = 60)`, the 60 being the
default used when the header is absent. -/
theorem execGet_exhausts_retry_budget {T : Type} (decode : String → Option T)
    (rs : List HttpResponse)
    (hall : ∀ r ∈ rs, r.status = 429 ∧ r.rateLimitReset = none)
    (hlen : 2 ≤ rs.length) :
    (execGet ⟨true, 2⟩ decode rs).result = .error (.rateLimitExhausted 2 60) :=
  execLoop_allRateLimited decode 2 rs 1 hall (by omega) (by omega)

/-- Witness for C3: two header-less 429 responses exhaust a budget of
two attempts with the default 60-second reset. -/
theorem execGet_exhausts_retry_budget_witness :
    2 ≤ (List.replicate 2 (⟨429, none, some ""⟩ : HttpResponse)).length
    ∧ (execGet ⟨true, 2⟩ parseU64 (List.replicate 2 ⟨429, none, some ""⟩)).result
      = .error (.rateLimitExhausted 2 60) :=
  ⟨by decide, execGet_exhausts_retry_budget parseU64 _ (by decide) (by decide)⟩

/-- C4: through the executor `get`, a response with any non-2xx status
other than 429 fails with `UnexpectedStatus` carrying that status and
the response body read as text, or the placeholder when the body cannot
be read. -/
theorem execGet_unexpected_status {T : Type} (decode : String → Option T)
    (policy : RetryPolicy) (s : Nat) (hdr rb : Option String)
    (rest : List HttpResponse)
    (h2xx : is2xx s = false) (h429 : (s == 429) = false) :
    execGet policy decode (⟨s, hdr, rb⟩ :: rest)
      = ⟨.error (.unexpectedStatus s (rb.getD unreadableBody)), []⟩ := by
  have hne : ¬(s = 429) := by simpa using h429
  simp [execGet, execLoop, h2xx, hne]

/-- Witness for C4: a 500 response with body `oops` fails with
`UnexpectedStatus(500, oops)`. -/
theorem execGet_unexpected_status_witness :
    is2xx 500 = false ∧ ((500 : Nat) == 429) = false
    ∧ execGet ⟨true, 3⟩ parseU64 [⟨500, none, some "oops"⟩]
      = ⟨.error (.unexpectedStatus 500 "oops"), []⟩ :=
  ⟨rfl, rfl, execGet_unexpected_status parseU64 ⟨true, 3⟩ 500 none (some "oops") [] rfl rfl⟩

/-- C5: decoding a tagged entity (`Interval` or `Renewable`) whose
`type` discriminator is outside the closed variant set
(`ActualInterval`/`ForecastInterval`/`CurrentInterval`, respectively
`ActualRenewable`/`ForecastRenewable`/`CurrentRenewable`) fails with a
deserialization error instead of producing a default variant. -/
theorem tagged_decode_rejects_unknown_variant (fields : List (String × Json))
    (t : String) (htag : getField fields "type" = some (.str t))
    (hi : ((t == "ActualInterval") || (t == "ForecastInterval")
        || (t == "CurrentInterval")) = false)
    (hr : ((t == "ActualRenewable") || (t == "ForecastRenewable")
        || (t == "CurrentRenewable")) = false) :
    (decodeInterval (.obj fields)).isOk = false
    ∧ (decodeRenewable (.obj fields)).isOk = false := by
  simp only [Bool.or_eq_false_iff, beq_eq_false_iff_ne, ne_eq] at hi hr
  obtain ⟨⟨hi1, hi2⟩, hi3⟩ := hi
  obtain ⟨⟨hr1, hr2⟩, hr3⟩ := hr
  constructor
  · simp [decodeInterval, htag, hi1, hi2, hi3, Except.isOk, Except.toBool]
  · simp [decodeRenewable, htag, hr1, hr2, hr3, Except.isOk, Except.toBool]

/-- Witness for C5: the tag `SomeBogus` is rejected by both tagged
decoders. -/
theorem tagged_decode_rejects_unknown_variant_witness :
    getField [("type", Json.str "SomeBogus")] "type" = some (.str "SomeBogus")
    ∧ (decodeInterval (.obj [("type", Json.str "SomeBogus")])).isOk = false
    ∧ (decodeRenewable (.obj [("type", Json.str "SomeBogus")])).isOk = false :=
  ⟨rfl,
    (tagged_decode_rejects_unknown_variant
      [("type", Json.str "SomeBogus")] "SomeBogus" rfl rfl rfl).1,
    (tagged_decode_rejects_unknown_variant
      [("type", Json.str "SomeBogus")] "SomeBogus" rfl rfl rfl).2⟩

/-- C6: optional endpoint parameters that are absent contribute no query
pair at all: both `current_prices` and `current_renewables` produce the
`currentQuery` assembly, the all-absent query is empty, supplying
`previous = 2` and `next = 3` produces exactly those two pairs with no
`resolution` pair, and an absent parameter's key never occurs. -/
theorem absent_optionals_omitted_from_query :
    currentQuery none none none = []
    ∧ currentQuery (some 3) (some 2) none = [("next", "3"), ("previous", "2")]
    ∧ (∀ (c : Amber) (sid : String) (n p : Option Nat) (r : Option Resolution),
        (c.currentPricesRequest sid n p r).query = currentQuery n p r)
    ∧ (∀ (c : Amber) (st : State) (n p : Option Nat) (r : Option Resolution),
        (c.currentRenewablesRequest st n p r).query = currentQuery n p r)
    ∧ (∀ (p : Option Nat) (r : Option Resolution),
        (currentQuery none p r).all (fun kv => kv.1 != "next") = true)
    ∧ (∀ (n : Option Nat) (r : Option Resolution),
        (currentQuery n none r).all (fun kv => kv.1 != "previous") = true)
    ∧ (∀ (n p : Option Nat),
        (currentQuery n p none).all (fun kv => kv.1 != "resolution") = true) := by
  refine ⟨rfl, rfl, fun _ _ _ _ _ => rfl, fun _ _ _ _ _ => rfl, ?_, ?_, ?_⟩
  · intro p r
    cases p <;> cases r <;> simp [currentQuery]
  · intro n r
    cases n <;> cases r <;> simp [currentQuery]
  · intro n p
    cases n <;> cases p <;> simp [currentQuery]

/-- C7: `current_prices` for site `S1` with `previous = 2`, `next = 3`
and thirty-minute resolution builds the path `sites/S1/prices/current`
appended to the base URL, with query pairs `next = 3`, `previous = 2`
and `resolution = 30` (the resolution encoded as its minute count), each
key appearing at most once. -/
theorem current_prices_request_construction (c : Amber) :
    (c.currentPricesRequest "S1" (some 3) (some 2) (some .ThirtyMinute)).url
      = c.base_url ++ "sites/S1/prices/current"
    ∧ (c.currentPricesRequest "S1" (some 3) (some 2) (some .ThirtyMinute)).query
      = [("next", "3"), ("previous", "2"), ("resolution", "30")]
    ∧ ((c.currentPricesRequest "S1" (some 3) (some 2)
        (some .ThirtyMinute)).query.map Prod.fst).Nodup := by
  refine ⟨rfl, rfl, ?_⟩
  have hq : (c.currentPricesRequest "S1" (some 3) (some 2) (some .ThirtyMinute)).query
      = [("next", "3"), ("previous", "2"), ("resolution", "30")] := rfl
  rw [hq]
  decide

/-- C8 counterexample: the claim that decoding rejects any payload whose
`startTime` is not strictly before its `endTime` is false — a payload
with identical start and end timestamps decodes successfully, and the
decoded record's start and end times are equal. -/
theorem decode_accepts_equal_start_end_times :
    decodeInterval (intervalPayloadAt sameInstant sameInstant) = .ok equalTimesDecoded
    ∧ equalTimesDecoded.base.start_time = equalTimesDecoded.base.end_time :=
  ⟨rfl, rfl⟩

/-- C8 (amended): decoding performs no ordering validation on the
interval timestamps — for any two well-formed timestamps, in either
order or equal, the payload decodes successfully and the record's
`start_time` and `end_time` are copied verbatim from the payload's
`startTime` and `endTime` members. -/
theorem decode_copies_timestamps_unvalidated (s e : String) (ts te : Timestamp)
    (hs : parseTimestamp s = some ts) (he : parseTimestamp e = some te) :
    decodeInterval (intervalPayloadAt s e) = .ok (.ActualInterval ⟨⟨5, 6, 24,
      ⟨"2021-05-05"⟩, ⟨"2021-05-06T12:30:00+10:00"⟩, ts, te,
      45, .General, none, .None, .Neutral⟩⟩) := by
  have hct : asChannelType (.str "general") = .ok ChannelType.General := rfl
  have hss : asSpikeStatus (.str "none") = .ok SpikeStatus.None := rfl
  have hpd : asPriceDescriptor (.str "neutral") = .ok PriceDescriptor.Neutral := rfl
  have hdt : asDate (.str "2021-05-05") = .ok ⟨"2021-05-05"⟩ := rfl
  have hnt : asTimestamp (.str "2021-05-06T12:30:00+10:00")
      = .ok ⟨"2021-05-06T12:30:00+10:00"⟩ := rfl
  have hu : asU32 (.num 5) = .ok 5 := rfl
  have hst : asTimestamp (.str s) = .ok ts := by
    simp [asTimestamp, asStr, bind, Except.bind, hs]
  have het : asTimestamp (.str e) = .ok te := by
    simp [asTimestamp, asStr, bind, Except.bind, he]
  simp [intervalPayloadAt, decodeInterval, decodeActualInterval, decodeBaseInterval,
    reqField, optField, getField, asNum, hct, hss, hpd, hdt, hnt, hu, hst, het,
    Except.map, Except.bind, bind]

/-- Witness for the amended C8: an end time strictly before the start
time decodes successfully with both timestamps copied verbatim. -/
theorem decode_copies_timestamps_unvalidated_witness :
    parseTimestamp "2021-05-05T02:30:00Z" = some ⟨"2021-05-05T02:30:00Z"⟩
    ∧ parseTimestamp "2021-05-05T02:00:00Z" = some ⟨"2021-05-05T02:00:00Z"⟩
    ∧ decodeInterval (intervalPayloadAt "2021-05-05T02:30:00Z" "2021-05-05T02:00:00Z")
      = .ok (.ActualInterval ⟨⟨5, 6, 24, ⟨"2021-05-05"⟩, ⟨"2021-05-06T12:30:00+10:00"⟩,
        ⟨"2021-05-05T02:30:00Z"⟩, ⟨"2021-05-05T02:00:00Z"⟩,
        45, .General, none, .None, .Neutral⟩⟩) :=
  ⟨rfl, rfl, decode_copies_timestamps_unvalidated _ _ _ _ rfl rfl⟩

/-- C9: decoding a `Usage` record never inspects a `type` member —
prepending any `type` binding to a payload leaves the decode result
unchanged, and a payload whose non-`type` members form a valid record
decodes successfully even under an unknown `type` value. -/
theorem usage_decode_ignores_type_field :
    (∀ (v : Json) (fields : List (String × Json)),
      decodeUsage (Json.obj (("type", v) :: fields)) = decodeUsage (Json.obj fields))
    ∧ (decodeUsage usageTypePayload).isOk = true :=
  ⟨fun _ _ => rfl, rfl⟩

/-- C10: a default-constructed client whose `AMBER_API_KEY` environment
variable is the empty string holds no credential and builds requests
identical to those of a client built with the variable unset (no
`Authorization` header); in general a default-constructed client's
bearer header is attached exactly when a credential is configured, and a
configured credential is never empty. -/
theorem default_client_empty_env_key (envVar env2 : String → Option String)
    (path : String) (q : List (String × String))
    (h : envVar "AMBER_API_KEY" = some "") :
    (Amber.defaultClient envVar).api_key = none
    ∧ Amber.defaultClient envVar = Amber.defaultClient (fun _ => none)
    ∧ ((Amber.defaultClient envVar).buildRequest path q).headers = []
    ∧ ((Amber.defaultClient env2).buildRequest path q).headers
        = (Amber.defaultClient env2).api_key.elim []
            (fun k => [("Authorization", "Bearer " ++ k)])
    ∧ (Amber.defaultClient env2).api_key.elim true (fun k => !k.isEmpty) = true := by
  have hemp : "".isEmpty = true := rfl
  refine ⟨?_, ?_, ?_, ?_, ?_⟩
  · simp [Amber.defaultClient, h, Option.filter, hemp]
  · simp [Amber.defaultClient, h, Option.filter, hemp]
  · simp [Amber.defaultClient, Amber.buildRequest, h, Option.filter, hemp]
  · cases hk : (Amber.defaultClient env2).api_key <;> simp [Amber.buildRequest, hk]
  · simp only [Amber.defaultClient]
    cases he : env2 "AMBER_API_KEY" with
    | none => simp [Option.filter]
    | some s =>
        cases hs : s.isEmpty <;> simp [Option.filter, hs]

/-- Witness for C10: concrete environments with an empty and with a
non-empty key. -/
theorem default_client_empty_env_key_witness :
    ((fun _ => some "") : String → Option String) "AMBER_API_KEY" = some ""
    ∧ (Amber.defaultClient (fun _ => some "")).api_key = none
    ∧ Amber.defaultClient (fun _ => some "") = Amber.defaultClient (fun _ => none)
    ∧ ((Amber.defaultClient (fun _ => some "")).buildRequest "sites" []).headers = []
    ∧ ((Amber.defaultClient (fun _ => some "secret")).buildRequest "sites" []).headers
        = (Amber.defaultClient (fun _ => some "secret")).api_key.elim []
            (fun k => [("Authorization", "Bearer " ++ k)])
    ∧ (Amber.defaultClient (fun _ => some "secret")).api_key.elim true
        (fun k => !k.isEmpty) = true := by
  have hmain := default_client_empty_env_key (fun _ => some "")
    (fun _ => some "secret") "sites" [] rfl
  exact ⟨rfl, hmain.1, hmain.2.1, hmain.2.2.1, hmain.2.2.2.1, hmain.2.2.2.2⟩

end AmberApi
